import Mathlib

/-!
Shallow embedding of the webmesh-vue library (src/network.ts, src/useWebmesh.ts,
src/options.ts) and proofs about its operations.

Promises are modelled by `Except Err`: a resolved promise is `Except.ok`, a rejected
one `Except.error`.  Stateful methods are modelled as pure functions that return the
result, the updated state and the list of RPC calls issued to the daemon client, in
order.  The daemon client itself (a pre-generated `PromiseClient` of the AppDaemon
service) is a record of response functions; theorems quantify over it, so every
client behaviour is covered.  Protobuf message types from `@webmeshproject/api` are
modelled structurally; fields the library reads through an unchecked `as` cast (which
may be `undefined` at runtime) are `Option`-valued.
-/

namespace Webmesh

/-- JavaScript `Error` value: only its message is observable here. -/
structure Err where
  message : String
deriving DecidableEq, Repr

/-- JavaScript `x || d` on an optional string: `undefined` and `''` are falsy. -/
def orElseStr (x : Option String) (d : String) : String :=
  match x with
  | none => d
  | some s => if s = "" then d else s

/-- JavaScript truthiness of an optional string (`undefined` and `''` are falsy). -/
def strTruthy : Option String → Bool
  | none => false
  | some s => s != ""

/-- DaemonConnStatus enum from app_pb. -/
inductive DaemonConnStatus where
  | DISCONNECTED
  | CONNECTING
  | CONNECTED
deriving DecidableEq, Repr

/-- Boolean test `status === DaemonConnStatus.CONNECTED`. -/
def statusConnected : DaemonConnStatus → Bool
  | DaemonConnStatus.CONNECTED => true
  | _ => false

/-- ConnectionParameters from app_pb: an external protobuf message whose contents the
library never inspects, modelled as an abstract token. -/
structure ConnectionParameters where
  raw : String := ""
deriving DecidableEq, Repr

/-- Protobuf `Struct` metadata: an external message the library never inspects,
modelled as an abstract token. -/
structure Metadata where
  raw : String := ""
deriving DecidableEq, Repr

/-- MeshNode from node_pb, restricted to the fields the library reads.  Scalar
protobuf fields are always-present strings. -/
structure MeshNode where
  id : String := ""
  privateIPv4 : String := ""
  privateIPv6 : String := ""
deriving DecidableEq, Repr

/-- GetConnectionResponse from app_pb, restricted to the fields the library reads.
`node` is an optional message field.  The scalar fields are `Option`-valued because
`putNetwork` manufactures a value of this type through an `as` cast that leaves them
`undefined`; a genuine daemon response has them all `some`. -/
structure GetConnectionResponse where
  status : DaemonConnStatus
  node : Option MeshNode := none
  ipv4Network : Option String := none
  ipv6Network : Option String := none
  domain : Option String := none
  parameters : Option ConnectionParameters := none
  metadata : Option Metadata := none
deriving DecidableEq, Repr

/-- ConnectResponse from app_pb, restricted to the fields the library reads.  The
fields are `Option`-valued because `Network`'s constructor manufactures one through
an `as` cast whose fields may be `undefined`; a genuine daemon response has them all
`some`. -/
structure ConnectResponse where
  nodeID : Option String := none
  ipv4Address : Option String := none
  ipv6Address : Option String := none
  ipv4Network : Option String := none
  ipv6Network : Option String := none
  meshDomain : Option String := none
deriving DecidableEq, Repr

/-- PutConnectionResponse from app_pb: the daemon-assigned connection id. -/
structure PutConnectionResponse where
  id : String := ""
deriving DecidableEq, Repr

/-- ListConnectionsResponse from app_pb: the `connections` protobuf map, modelled as
an association list in iteration order of `Object.entries`. -/
structure ListConnectionsResponse where
  connections : List (String × GetConnectionResponse) := []
deriving DecidableEq, Repr

/-- InterfaceMetrics from node_pb: the library never inspects its contents, modelled
as an abstract token. -/
structure InterfaceMetrics where
  raw : String := ""
deriving DecidableEq, Repr

/-- MetricsResponse from app_pb: the `interfaces` protobuf map, modelled as an
association list. -/
structure MetricsResponse where
  interfaces : List (String × InterfaceMetrics) := []
deriving DecidableEq, Repr

/-- DaemonStatus from app_pb: the library forwards it opaquely, modelled as an
abstract token. -/
structure DaemonStatus where
  raw : String := ""
deriving DecidableEq, Repr

/-- One RPC invocation on the daemon client, with its request data. -/
inductive RpcCall where
  | status
  | listConnections
  | putConnection (id : Option String) (parameters : Option ConnectionParameters)
      (metadata : Option Metadata)
  | getConnection (id : String)
  | dropConnection (id : String)
  | connect (id : String)
  | disconnect (id : String)
  | metrics (ids : List String)
deriving DecidableEq, Repr

/-- DaemonClient (PromiseClient of the AppDaemon service): one response function per
method used by the library.  `Except.ok` is a resolved promise, `Except.error` a
rejected one. -/
structure DaemonClient where
  status : Except Err DaemonStatus
  listConnections : Except Err ListConnectionsResponse
  putConnection : Option String → Option ConnectionParameters → Option Metadata →
    Except Err PutConnectionResponse
  getConnection : String → Except Err GetConnectionResponse
  dropConnection : String → Except Err Unit
  connect : String → Except Err ConnectResponse
  disconnect : String → Except Err Unit
  metrics : List String → Except Err MetricsResponse

/-- NetworkParameters / Parameters from options.ts: optional id, connection
parameters and metadata. -/
structure NetworkParameters where
  id : Option String := none
  params : Option ConnectionParameters := none
  meta : Option Metadata := none

/-- Network from network.ts: the daemon client, the connection id, the
`GetConnectionResponse` it was built from (source spelling `connnection` kept), and
the two mutable fields set by the constructor and by connect/disconnect. -/
structure Network where
  client : DaemonClient
  id : String
  connnection : GetConnectionResponse
  connected : Bool
  details : Option ConnectResponse

/-- Network's constructor: `connected` is `status === CONNECTED`; when connected,
`details` is built from the response through an `as ConnectResponse` cast (fields
reached through `node?.` may be `undefined`), otherwise `null`. -/
def Network.make (client : DaemonClient) (id : String)
    (connnection : GetConnectionResponse) : Network :=
  { client := client
    id := id
    connnection := connnection
    connected := statusConnected connnection.status
    details :=
      if statusConnected connnection.status then
        some { nodeID := connnection.node.map MeshNode.id
               ipv4Address := connnection.node.map MeshNode.privateIPv4
               ipv6Address := connnection.node.map MeshNode.privateIPv6
               ipv4Network := connnection.ipv4Network
               ipv6Network := connnection.ipv6Network
               meshDomain := connnection.domain }
      else none }

/-- Getter `params`: the stored id together with the response's parameters and
metadata, defaulted to empty objects by `|| {}`. -/
def Network.params (n : Network) : NetworkParameters :=
  { id := some n.id
    params := some (n.connnection.parameters.getD {})
    meta := some (n.connnection.metadata.getD {}) }

/-- Getter `status`. -/
def Network.status (n : Network) : DaemonConnStatus :=
  n.connnection.status

/-- Getter `nodeID`: `this.details?.nodeID || ''`. -/
def Network.nodeID (n : Network) : String :=
  orElseStr (n.details.bind ConnectResponse.nodeID) ""

/-- Getter `ipv4Address`: `this.details?.ipv4Address || ''`. -/
def Network.ipv4Address (n : Network) : String :=
  orElseStr (n.details.bind ConnectResponse.ipv4Address) ""

/-- Getter `ipv6Address`: `this.details?.ipv6Address || ''`. -/
def Network.ipv6Address (n : Network) : String :=
  orElseStr (n.details.bind ConnectResponse.ipv6Address) ""

/-- Getter `ipv4Network`: `this.details?.ipv4Network || ''`. -/
def Network.ipv4Network (n : Network) : String :=
  orElseStr (n.details.bind ConnectResponse.ipv4Network) ""

/-- Getter `ipv6Network`: `this.details?.ipv6Network || ''`. -/
def Network.ipv6Network (n : Network) : String :=
  orElseStr (n.details.bind ConnectResponse.ipv6Network) ""

/-- Getter `domain`: `this.details?.meshDomain || ''`. -/
def Network.domain (n : Network) : String :=
  orElseStr (n.details.bind ConnectResponse.meshDomain) ""

/-- Getter `fqdn`: `this.connected ? this.nodeID + '.' + this.domain : ''`. -/
def Network.fqdn (n : Network) : String :=
  if n.connected then n.nodeID ++ "." ++ n.domain else ""

/-- Network.connect: rejects immediately when already connected; otherwise calls
`client.connect({id})`, and on success sets `connected` and `details`. -/
def Network.connect (n : Network) : Except Err Unit × Network × List RpcCall :=
  if n.connected then
    (Except.error { message := "already connected" }, n, [])
  else
    match n.client.connect n.id with
    | Except.ok res =>
        (Except.ok (), { n with connected := true, details := some res },
          [RpcCall.connect n.id])
    | Except.error e => (Except.error e, n, [RpcCall.connect n.id])

/-- Network.disconnect: rejects immediately when not connected; otherwise calls
`client.disconnect({id})`, and on success clears `connected` and `details`. -/
def Network.disconnect (n : Network) : Except Err Unit × Network × List RpcCall :=
  if !n.connected then
    (Except.error { message := "not connected" }, n, [])
  else
    match n.client.disconnect n.id with
    | Except.ok _ =>
        (Except.ok (), { n with connected := false, details := none },
          [RpcCall.disconnect n.id])
    | Except.error e => (Except.error e, n, [RpcCall.disconnect n.id])

/-- Network.drop: when connected, first disconnect, then `dropConnection`; when not
connected, `dropConnection` directly; every error is forwarded. -/
def Network.drop (n : Network) : Except Err Unit × Network × List RpcCall :=
  if n.connected then
    match n.disconnect with
    | (Except.ok _, n1, calls1) =>
        match n1.client.dropConnection n1.id with
        | Except.ok _ => (Except.ok (), n1, calls1 ++ [RpcCall.dropConnection n1.id])
        | Except.error e =>
            (Except.error e, n1, calls1 ++ [RpcCall.dropConnection n1.id])
    | (Except.error e, n1, calls1) => (Except.error e, n1, calls1)
  else
    match n.client.dropConnection n.id with
    | Except.ok _ => (Except.ok (), n, [RpcCall.dropConnection n.id])
    | Except.error e => (Except.error e, n, [RpcCall.dropConnection n.id])

/-- Network.metrics: calls `client.metrics({ids:[id]})` and resolves with the entry
for this id from the response map (which may be absent, hence `Option`).  The
source's `if (!this.connected) { Promise.resolve(...) }` creates a promise without
returning it, so it has no effect and the client is always called. -/
def Network.metrics (n : Network) :
    Except Err (Option InterfaceMetrics) × Network × List RpcCall :=
  match n.client.metrics [n.id] with
  | Except.ok res => (Except.ok (res.interfaces.lookup n.id), n, [RpcCall.metrics [n.id]])
  | Except.error e => (Except.error e, n, [RpcCall.metrics [n.id]])

/-!
The useWebmesh context.  Its mutable state is the client ref and the `networks`
ref (the cache).  JavaScript object aliasing — the cache entry returned by
`getNetwork`/`putNetwork` is the very object a Network method then mutates — is
rendered in value semantics by writing the updated Network back into the cache at
its id (it is present there, having just been upserted). -/

/-- JavaScript `Array.prototype.findIndex`: index of the first element satisfying
`p`, `none` for the source's `-1`. -/
def findIndex (p : α → Bool) : List α → Option Nat
  | [] => none
  | a :: l => if p a then some 0 else (findIndex p l).map (· + 1)

/-- State of a useWebmesh context: the daemon client and the `networks` cache. -/
structure WebmeshState where
  client : DaemonClient
  networks : List Network

/-- upsertNetwork from useWebmesh.ts: replace the first cache entry with the same id
(`splice(i, 1, conn)`), or append when there is none. -/
def upsertNetwork (conn : Network) (networks : List Network) : List Network :=
  match findIndex (fun c => c.id == conn.id) networks with
  | some i => networks.set i conn
  | none => networks ++ [conn]

/-- removeNetwork from useWebmesh.ts: remove the first cache entry with the given id
(`splice(i, 1)`); no match leaves the cache unchanged. -/
def removeNetwork (id : String) (networks : List Network) : List Network :=
  match findIndex (fun c => c.id == id) networks with
  | some i => networks.eraseIdx i
  | none => networks

/-- daemonStatus: pass-through of `client.status({})`. -/
def daemonStatus (s : WebmeshState) :
    Except Err DaemonStatus × WebmeshState × List RpcCall :=
  (s.client.status, s, [RpcCall.status])

/-- listNetworks: calls `client.listConnections({})`; on success builds one Network
per entry of the response's `connections` map, replaces `networks.value` with that
array and resolves with the same array; a rejection is forwarded. -/
def listNetworks (s : WebmeshState) :
    Except Err (List Network) × WebmeshState × List RpcCall :=
  match s.client.listConnections with
  | Except.ok resp =>
      let data := resp.connections.map (fun p => Network.make s.client p.1 p.2)
      (Except.ok data, { s with networks := data }, [RpcCall.listConnections])
  | Except.error e => (Except.error e, s, [RpcCall.listConnections])

/-- putNetwork: calls `client.putConnection`; on success builds a Network from the
returned id and a DISCONNECTED `GetConnectionResponse` cast (node and network fields
left `undefined`), upserts it into the cache and resolves with it; a rejection is
forwarded. -/
def putNetwork (params : NetworkParameters) (s : WebmeshState) :
    Except Err Network × WebmeshState × List RpcCall :=
  match s.client.putConnection params.id params.params params.meta with
  | Except.ok res =>
      let conn := Network.make s.client res.id
        { status := DaemonConnStatus.DISCONNECTED
          parameters := params.params
          metadata := params.meta }
      (Except.ok conn, { s with networks := upsertNetwork conn s.networks },
        [RpcCall.putConnection params.id params.params params.meta])
  | Except.error e =>
      (Except.error e, s, [RpcCall.putConnection params.id params.params params.meta])

/-- getNetwork: calls `client.getConnection({id})`; on success builds a Network from
the requested id and the response, upserts it into the cache and resolves with it; a
rejection is forwarded. -/
def getNetwork (id : String) (s : WebmeshState) :
    Except Err Network × WebmeshState × List RpcCall :=
  match s.client.getConnection id with
  | Except.ok res =>
      let conn := Network.make s.client id res
      (Except.ok conn, { s with networks := upsertNetwork conn s.networks },
        [RpcCall.getConnection id])
  | Except.error e => (Except.error e, s, [RpcCall.getConnection id])

/-- connect (context operation): with params or meta present, putNetwork then
`conn.connect()`; otherwise with a truthy id, getNetwork then `conn.connect()`;
otherwise reject locally.  Every rejection is forwarded; the resolved value is the
(mutated) Network. -/
def connect (params : NetworkParameters) (s : WebmeshState) :
    Except Err Network × WebmeshState × List RpcCall :=
  if params.meta.isSome || params.params.isSome then
    match putNetwork params s with
    | (Except.ok conn, s1, calls1) =>
        match conn.connect with
        | (Except.ok _, conn1, calls2) =>
            (Except.ok conn1, { s1 with networks := upsertNetwork conn1 s1.networks },
              calls1 ++ calls2)
        | (Except.error e, conn1, calls2) =>
            (Except.error e, { s1 with networks := upsertNetwork conn1 s1.networks },
              calls1 ++ calls2)
    | (Except.error e, s1, calls1) => (Except.error e, s1, calls1)
  else if strTruthy params.id then
    match getNetwork (params.id.getD "") s with
    | (Except.ok conn, s1, calls1) =>
        match conn.connect with
        | (Except.ok _, conn1, calls2) =>
            (Except.ok conn1, { s1 with networks := upsertNetwork conn1 s1.networks },
              calls1 ++ calls2)
        | (Except.error e, conn1, calls2) =>
            (Except.error e, { s1 with networks := upsertNetwork conn1 s1.networks },
              calls1 ++ calls2)
    | (Except.error e, s1, calls1) => (Except.error e, s1, calls1)
  else
    (Except.error { message := "no connection parameters provided" }, s, [])

/-- disconnect (context operation): getNetwork then `conn.disconnect()`; every
rejection is forwarded. -/
def disconnect (id : String) (s : WebmeshState) :
    Except Err Unit × WebmeshState × List RpcCall :=
  match getNetwork id s with
  | (Except.ok conn, s1, calls1) =>
      match conn.disconnect with
      | (Except.ok _, conn1, calls2) =>
          (Except.ok (), { s1 with networks := upsertNetwork conn1 s1.networks },
            calls1 ++ calls2)
      | (Except.error e, conn1, calls2) =>
          (Except.error e, { s1 with networks := upsertNetwork conn1 s1.networks },
            calls1 ++ calls2)
  | (Except.error e, s1, calls1) => (Except.error e, s1, calls1)

/-- dropNetwork: getNetwork, then `conn.drop()`, then removeNetwork; the `finally`
clause runs removeNetwork on every path, including both error paths, so on the
success path the removal runs twice.  Rejections are forwarded. -/
def dropNetwork (id : String) (s : WebmeshState) :
    Except Err Unit × WebmeshState × List RpcCall :=
  match getNetwork id s with
  | (Except.ok conn, s1, calls1) =>
      match conn.drop with
      | (Except.ok _, _, calls2) =>
          (Except.ok (),
            { s1 with networks := removeNetwork id (removeNetwork id s1.networks) },
            calls1 ++ calls2)
      | (Except.error e, _, calls2) =>
          (Except.error e, { s1 with networks := removeNetwork id s1.networks },
            calls1 ++ calls2)
  | (Except.error e, s1, calls1) =>
      (Except.error e, { s1 with networks := removeNetwork id s1.networks }, calls1)

/-!
Timer bookkeeping of useWebmesh.  `let interval: NodeJS.Timeout` is the module-level
variable (`undefined` until first set, hence `Option`); `active` is the set of live
intervals registered with the host (in registration order) and `nextId` the next
fresh timer handle.  `newClientTimers` is the timer effect of `newClient` (clear the
previous interval if any, then `setInterval` a fresh one); `unmountTimers` is the
`onUnmounted` handler (clear the interval if any).  A poll of `listNetworks` can
only be issued by a live member of `active`. -/

structure TimerState where
  intervalVar : Option Nat
  active : List Nat
  nextId : Nat
deriving DecidableEq, Repr

/-- Initial timer state: the interval variable is unset and no interval is live. -/
def TimerState.init : TimerState :=
  { intervalVar := none, active := [], nextId := 0 }

/-- Timer effect of newClient: `if (interval) clearInterval(interval)`, then
`interval = setInterval(...)`. -/
def newClientTimers (t : TimerState) : TimerState :=
  let t1 :=
    match t.intervalVar with
    | some i => { t with active := t.active.erase i }
    | none => t
  { intervalVar := some t1.nextId
    active := t1.active ++ [t1.nextId]
    nextId := t1.nextId + 1 }

/-- Timer effect of the onUnmounted handler: `if (interval) clearInterval(interval)`. -/
def unmountTimers (t : TimerState) : TimerState :=
  match t.intervalVar with
  | some i => { t with active := t.active.erase i }
  | none => t

/-!
Concrete fixtures used by witnesses and counterexamples: a daemon response for a
connected and a disconnected connection, a client whose calls all succeed, and a
client whose calls all fail. -/

/-- Sample connected GetConnectionResponse. -/
def sampleGetConnected : GetConnectionResponse :=
  { status := DaemonConnStatus.CONNECTED
    node := some { id := "node-1", privateIPv4 := "172.16.0.2", privateIPv6 := "fdaa::2" }
    ipv4Network := some "172.16.0.0/16"
    ipv6Network := some "fdaa::/64"
    domain := some "example.internal" }

/-- Sample disconnected GetConnectionResponse. -/
def sampleGetDisconnected : GetConnectionResponse :=
  { status := DaemonConnStatus.DISCONNECTED }

/-- Sample ConnectResponse with every field present. -/
def sampleConnectRes : ConnectResponse :=
  { nodeID := some "node-1"
    ipv4Address := some "172.16.0.2"
    ipv6Address := some "fdaa::2"
    ipv4Network := some "172.16.0.0/16"
    ipv6Network := some "fdaa::/64"
    meshDomain := some "example.internal" }

/-- Client whose calls all succeed. -/
def okClient : DaemonClient :=
  { status := Except.ok {}
    listConnections := Except.ok
      { connections := [("net-a", sampleGetConnected), ("net-b", sampleGetDisconnected)] }
    putConnection := fun i _ _ => Except.ok { id := i.getD "generated" }
    getConnection := fun _ => Except.ok sampleGetConnected
    dropConnection := fun _ => Except.ok ()
    connect := fun _ => Except.ok sampleConnectRes
    disconnect := fun _ => Except.ok ()
    metrics := fun _ => Except.ok { interfaces := [("net-a", { raw := "ifmetrics" })] } }

/-- Client whose calls all reject with the same error. -/
def errClient : DaemonClient :=
  { status := Except.error { message := "daemon unreachable" }
    listConnections := Except.error { message := "daemon unreachable" }
    putConnection := fun _ _ _ => Except.error { message := "daemon unreachable" }
    getConnection := fun _ => Except.error { message := "daemon unreachable" }
    dropConnection := fun _ => Except.error { message := "daemon unreachable" }
    connect := fun _ => Except.error { message := "daemon unreachable" }
    disconnect := fun _ => Except.error { message := "daemon unreachable" }
    metrics := fun _ => Except.error { message := "daemon unreachable" } }

/-- Sample connected Network over the succeeding client. -/
def sampleNet : Network := Network.make okClient "net-a" sampleGetConnected

/-- Sample disconnected Network over the succeeding client. -/
def sampleNetD : Network := Network.make okClient "net-b" sampleGetDisconnected

/-- Sample context state over the succeeding client. -/
def sampleState : WebmeshState := { client := okClient, networks := [sampleNet] }

/-- Sample context state over the failing client. -/
def errState : WebmeshState := { client := errClient, networks := [] }

/-!
Helper lemmas. -/

/-- JavaScript `s || ''` on a present string is the string itself. -/
theorem orElseStr_some_empty (s : String) : orElseStr (some s) "" = s := by
  by_cases h : s = "" <;> simp [orElseStr, h]

/-- C8: Network.connect on an already-connected Network rejects with
Error('already connected') without invoking the RPC client and leaves the state
unchanged; Network.disconnect on a non-connected Network rejects with
Error('not connected') without invoking the client and leaves the state unchanged. -/
theorem claim8_guard_rejections :
    (∀ n : Network, n.connected = true →
      n.connect = (Except.error { message := "already connected" }, n, [])) ∧
    (∀ n : Network, n.connected = false →
      n.disconnect = (Except.error { message := "not connected" }, n, [])) := by
  constructor
  · intro n h
    simp [Network.connect, h]
  · intro n h
    simp [Network.disconnect, h]

/-- Witness for C8 at a concrete connected and a concrete disconnected Network. -/
theorem claim8_guard_rejections_witness :
    sampleNet.connect = (Except.error { message := "already connected" }, sampleNet, []) ∧
    sampleNetD.disconnect = (Except.error { message := "not connected" }, sampleNetD, []) :=
  ⟨claim8_guard_rejections.1 sampleNet rfl, claim8_guard_rejections.2 sampleNetD rfl⟩

/-- C10: a Network constructed from a GetConnectionResponse whose status is not
CONNECTED has `connected = false`, `details = null`, and every string getter
(nodeID, ipv4Address, ipv6Address, ipv4Network, ipv6Network, domain, fqdn) returns
the empty string. -/
theorem claim10_disconnected_defaults :
    ∀ (client : DaemonClient) (id : String) (g : GetConnectionResponse),
      g.status ≠ DaemonConnStatus.CONNECTED →
      (Network.make client id g).connected = false ∧
      (Network.make client id g).details = none ∧
      (Network.make client id g).nodeID = "" ∧
      (Network.make client id g).ipv4Address = "" ∧
      (Network.make client id g).ipv6Address = "" ∧
      (Network.make client id g).ipv4Network = "" ∧
      (Network.make client id g).ipv6Network = "" ∧
      (Network.make client id g).domain = "" ∧
      (Network.make client id g).fqdn = "" := by
  intro client id g h
  have hs : statusConnected g.status = false := by
    cases hg : g.status <;> simp [statusConnected]
    exact h hg
  refine ⟨?_, ?_, ?_, ?_, ?_, ?_, ?_, ?_, ?_⟩ <;>
    simp [Network.make, Network.nodeID, Network.ipv4Address, Network.ipv6Address,
      Network.ipv4Network, Network.ipv6Network, Network.domain, Network.fqdn,
      orElseStr, hs]

/-- Witness for C10 at a concrete disconnected response. -/
theorem claim10_disconnected_defaults_witness :
    (Network.make okClient "net-b" sampleGetDisconnected).connected = false ∧
    (Network.make okClient "net-b" sampleGetDisconnected).details = none ∧
    (Network.make okClient "net-b" sampleGetDisconnected).nodeID = "" ∧
    (Network.make okClient "net-b" sampleGetDisconnected).ipv4Address = "" ∧
    (Network.make okClient "net-b" sampleGetDisconnected).ipv6Address = "" ∧
    (Network.make okClient "net-b" sampleGetDisconnected).ipv4Network = "" ∧
    (Network.make okClient "net-b" sampleGetDisconnected).ipv6Network = "" ∧
    (Network.make okClient "net-b" sampleGetDisconnected).domain = "" ∧
    (Network.make okClient "net-b" sampleGetDisconnected).fqdn = "" :=
  claim10_disconnected_defaults okClient "net-b" sampleGetDisconnected (by decide)

/-- C6: a successful Network.connect sets `connected := true` and `details := res`
and changes no other field; a successful Network.disconnect sets
`connected := false` and `details := null` and changes no other field; when the
client call rejects, the whole Network state is unchanged. -/
theorem claim6_frame :
    (∀ (n : Network) (res : ConnectResponse), n.connected = false →
      n.client.connect n.id = Except.ok res →
      (n.connect).2.1.connected = true ∧
      (n.connect).2.1.details = some res ∧
      (n.connect).2.1.id = n.id ∧
      (n.connect).2.1.client = n.client ∧
      (n.connect).2.1.connnection = n.connnection) ∧
    (∀ (n : Network) (e : Err), n.connected = false →
      n.client.connect n.id = Except.error e → (n.connect).2.1 = n) ∧
    (∀ n : Network, n.connected = true →
      n.client.disconnect n.id = Except.ok () →
      (n.disconnect).2.1.connected = false ∧
      (n.disconnect).2.1.details = none ∧
      (n.disconnect).2.1.id = n.id ∧
      (n.disconnect).2.1.client = n.client ∧
      (n.disconnect).2.1.connnection = n.connnection) ∧
    (∀ (n : Network) (e : Err), n.connected = true →
      n.client.disconnect n.id = Except.error e → (n.disconnect).2.1 = n) := by
  refine ⟨?_, ?_, ?_, ?_⟩
  · intro n res h hc
    simp [Network.connect, h, hc]
  · intro n e h hc
    simp [Network.connect, h, hc]
  · intro n h hc
    simp [Network.disconnect, h, hc]
  · intro n e h hc
    simp [Network.disconnect, h, hc]

/-- Witness for C6: a concrete disconnected Network over the succeeding client
connects, and over the failing client stays unchanged. -/
theorem claim6_frame_witness :
    ((sampleNetD.connect).2.1.connected = true ∧
     (sampleNetD.connect).2.1.details = some sampleConnectRes ∧
     (sampleNetD.connect).2.1.id = sampleNetD.id ∧
     (sampleNetD.connect).2.1.client = sampleNetD.client ∧
     (sampleNetD.connect).2.1.connnection = sampleNetD.connnection) ∧
    ((Network.make errClient "net-b" sampleGetDisconnected).connect).2.1 =
      Network.make errClient "net-b" sampleGetDisconnected :=
  ⟨claim6_frame.1 sampleNetD sampleConnectRes rfl rfl,
   claim6_frame.2.1 (Network.make errClient "net-b" sampleGetDisconnected)
     { message := "daemon unreachable" } rfl rfl⟩

/-- C5: getters are exactly the response fields.  When a Network's details were set
by a successful connect whose response has every field present, nodeID, ipv4Address,
ipv6Address, ipv4Network, ipv6Network and domain return exactly those fields and
fqdn returns nodeID + '.' + domain; the same holds for a Network constructed from a
CONNECTED GetConnectionResponse with its node and scalar fields present. -/
theorem claim5_getters :
    (∀ (n : Network) (a b c d e f : String), n.connected = false →
      n.client.connect n.id = Except.ok
        { nodeID := some a, ipv4Address := some b, ipv6Address := some c,
          ipv4Network := some d, ipv6Network := some e, meshDomain := some f } →
      (n.connect).2.1.nodeID = a ∧
      (n.connect).2.1.ipv4Address = b ∧
      (n.connect).2.1.ipv6Address = c ∧
      (n.connect).2.1.ipv4Network = d ∧
      (n.connect).2.1.ipv6Network = e ∧
      (n.connect).2.1.domain = f ∧
      (n.connect).2.1.fqdn = a ++ "." ++ f) ∧
    (∀ (client : DaemonClient) (id : String) (g : GetConnectionResponse)
        (nd : MeshNode) (p4 p6 dm : String),
      g.status = DaemonConnStatus.CONNECTED → g.node = some nd →
      g.ipv4Network = some p4 → g.ipv6Network = some p6 → g.domain = some dm →
      (Network.make client id g).nodeID = nd.id ∧
      (Network.make client id g).ipv4Address = nd.privateIPv4 ∧
      (Network.make client id g).ipv6Address = nd.privateIPv6 ∧
      (Network.make client id g).ipv4Network = p4 ∧
      (Network.make client id g).ipv6Network = p6 ∧
      (Network.make client id g).domain = dm ∧
      (Network.make client id g).fqdn = nd.id ++ "." ++ dm) := by
  constructor
  · intro n a b c d e f h hc
    simp [Network.connect, h, hc, Network.nodeID, Network.ipv4Address,
      Network.ipv6Address, Network.ipv4Network, Network.ipv6Network, Network.domain,
      Network.fqdn, orElseStr_some_empty]
  · intro client id g nd p4 p6 dm hst hnode h4 h6 hdm
    have hs : statusConnected g.status = true := by rw [hst]; rfl
    simp [Network.make, hs, hnode, h4, h6, hdm, Network.nodeID, Network.ipv4Address,
      Network.ipv6Address, Network.ipv4Network, Network.ipv6Network, Network.domain,
      Network.fqdn, orElseStr_some_empty]

/-- Witness for C5 at a concrete connect response and a concrete connected
GetConnectionResponse. -/
theorem claim5_getters_witness :
    ((sampleNetD.connect).2.1.nodeID = "node-1" ∧
     (sampleNetD.connect).2.1.ipv4Address = "172.16.0.2" ∧
     (sampleNetD.connect).2.1.ipv6Address = "fdaa::2" ∧
     (sampleNetD.connect).2.1.ipv4Network = "172.16.0.0/16" ∧
     (sampleNetD.connect).2.1.ipv6Network = "fdaa::/64" ∧
     (sampleNetD.connect).2.1.domain = "example.internal" ∧
     (sampleNetD.connect).2.1.fqdn = "node-1" ++ "." ++ "example.internal") ∧
    (sampleNet.nodeID = "node-1" ∧
     sampleNet.ipv4Address = "172.16.0.2" ∧
     sampleNet.ipv6Address = "fdaa::2" ∧
     sampleNet.ipv4Network = "172.16.0.0/16" ∧
     sampleNet.ipv6Network = "fdaa::/64" ∧
     sampleNet.domain = "example.internal" ∧
     sampleNet.fqdn = "node-1" ++ "." ++ "example.internal") :=
  ⟨claim5_getters.1 sampleNetD "node-1" "172.16.0.2" "fdaa::2" "172.16.0.0/16"
      "fdaa::/64" "example.internal" rfl rfl,
   claim5_getters.2 okClient "net-a" sampleGetConnected
      { id := "node-1", privateIPv4 := "172.16.0.2", privateIPv6 := "fdaa::2" }
      "172.16.0.0/16" "fdaa::/64" "example.internal" rfl rfl rfl rfl rfl⟩

/-- C2: after every successful listNetworks call the networks cache is replaced by an
array with exactly one Network per entry of the response's `connections` map, each
built from that entry's id and GetConnectionResponse, and the same array is the
promise's resolved value. -/
theorem claim2_list_synchronizes_cache :
    ∀ (s : WebmeshState) (resp : ListConnectionsResponse),
      s.client.listConnections = Except.ok resp →
      listNetworks s =
        (Except.ok (resp.connections.map (fun p => Network.make s.client p.1 p.2)),
         { s with networks :=
             resp.connections.map (fun p => Network.make s.client p.1 p.2) },
         [RpcCall.listConnections]) := by
  intro s resp h
  simp [listNetworks, h]

/-- Characterization of findIndex returning no match. -/
theorem findIndex_eq_none_iff (p : α → Bool) :
    ∀ l : List α, findIndex p l = none ↔ ∀ a ∈ l, p a = false := by
  intro l
  induction l with
  | nil => simp [findIndex]
  | cons a l ih => by_cases h : p a <;> simp [findIndex, h, ih]

/-- findIndex over a list whose first match sits after a match-free prefix returns
the prefix length. -/
theorem findIndex_append_match (p : α → Bool) (pre : List α) (x : α) (post : List α)
    (hpre : ∀ a ∈ pre, p a = false) (hx : p x = true) :
    findIndex p (pre ++ x :: post) = some pre.length := by
  induction pre with
  | nil => simp [findIndex, hx]
  | cons a l ih =>
      have ha : p a = false := hpre a (by simp)
      simp [findIndex, ha, ih (fun b hb => hpre b (by simp [hb]))]

/-- JavaScript `splice(i, 1, y)` at the first position past a prefix. -/
theorem set_append_length (pre : List α) (x y : α) (post : List α) :
    (pre ++ x :: post).set pre.length y = pre ++ y :: post := by
  induction pre with
  | nil => simp
  | cons a l ih => simp [ih]

/-- JavaScript `splice(i, 1)` at the first position past a prefix. -/
theorem eraseIdx_append_length (pre : List α) (x : α) (post : List α) :
    (pre ++ x :: post).eraseIdx pre.length = pre ++ post := by
  induction pre with
  | nil => simp
  | cons a l ih => simp [ih]

/-- C3: cache upkeep is find-or-insert/remove by identifier.  upsertNetwork replaces
the first entry with the new Network's id in place and appends when there is none;
removeNetwork removes only the first entry with the id and leaves the cache
unchanged when the id is absent; successful putNetwork and getNetwork update the
cache exactly by upserting the Network they resolve with. -/
theorem claim3_cache_upkeep :
    (∀ (conn : Network) (ns : List Network), (∀ c ∈ ns, c.id ≠ conn.id) →
      upsertNetwork conn ns = ns ++ [conn]) ∧
    (∀ (conn old : Network) (pre post : List Network), old.id = conn.id →
      (∀ c ∈ pre, c.id ≠ conn.id) →
      upsertNetwork conn (pre ++ old :: post) = pre ++ conn :: post) ∧
    (∀ (id : String) (ns : List Network), (∀ c ∈ ns, c.id ≠ id) →
      removeNetwork id ns = ns) ∧
    (∀ (id : String) (old : Network) (pre post : List Network), old.id = id →
      (∀ c ∈ pre, c.id ≠ id) →
      removeNetwork id (pre ++ old :: post) = pre ++ post) ∧
    (∀ (p : NetworkParameters) (s : WebmeshState) (conn : Network),
      (putNetwork p s).1 = Except.ok conn →
      (putNetwork p s).2.1.networks = upsertNetwork conn s.networks) ∧
    (∀ (id : String) (s : WebmeshState) (conn : Network),
      (getNetwork id s).1 = Except.ok conn →
      (getNetwork id s).2.1.networks = upsertNetwork conn s.networks) := by
  refine ⟨?_, ?_, ?_, ?_, ?_, ?_⟩
  · intro conn ns h
    have hfi : findIndex (fun c => c.id == conn.id) ns = none :=
      (findIndex_eq_none_iff _ ns).mpr (fun c hc => by simp [h c hc])
    simp [upsertNetwork, hfi]
  · intro conn old pre post hold hpre
    have hfi : findIndex (fun c => c.id == conn.id) (pre ++ old :: post) =
        some pre.length :=
      findIndex_append_match _ pre old post
        (fun c hc => by simp [hpre c hc]) (by simp [hold])
    simp [upsertNetwork, hfi, set_append_length]
  · intro id ns h
    have hfi : findIndex (fun c => c.id == id) ns = none :=
      (findIndex_eq_none_iff _ ns).mpr (fun c hc => by simp [h c hc])
    simp [removeNetwork, hfi]
  · intro id old pre post hold hpre
    have hfi : findIndex (fun c => c.id == id) (pre ++ old :: post) =
        some pre.length :=
      findIndex_append_match _ pre old post
        (fun c hc => by simp [hpre c hc]) (by simp [hold])
    simp [removeNetwork, hfi, eraseIdx_append_length]
  · intro p s conn h
    cases hres : s.client.putConnection p.id p.params p.meta with
    | ok res =>
        simp [putNetwork, hres] at h ⊢
        rw [← h]
    | error e => simp [putNetwork, hres] at h
  · intro id s conn h
    cases hres : s.client.getConnection id with
    | ok res =>
        simp [getNetwork, hres] at h ⊢
        rw [← h]
    | error e => simp [getNetwork, hres] at h

/-- Witness for C3 at concrete caches: replacement in place, append, first-only
removal, absent-id removal, and the putNetwork/getNetwork cache updates. -/
theorem claim3_cache_upkeep_witness :
    upsertNetwork sampleNetD [sampleNet] = [sampleNet] ++ [sampleNetD] ∧
    upsertNetwork sampleNet ([sampleNetD] ++ sampleNet :: []) =
      [sampleNetD] ++ sampleNet :: [] ∧
    removeNetwork "absent" [sampleNet] = [sampleNet] ∧
    removeNetwork "net-a" ([sampleNetD] ++ sampleNet :: []) = [sampleNetD] ++ [] ∧
    (putNetwork { id := some "net-c" } sampleState).2.1.networks =
      upsertNetwork (Network.make okClient "net-c"
        { status := DaemonConnStatus.DISCONNECTED }) sampleState.networks ∧
    (getNetwork "net-a" sampleState).2.1.networks =
      upsertNetwork (Network.make okClient "net-a" sampleGetConnected)
        sampleState.networks :=
  ⟨claim3_cache_upkeep.1 sampleNetD [sampleNet] (by decide),
   claim3_cache_upkeep.2.1 sampleNet sampleNet [sampleNetD] [] rfl (by decide),
   claim3_cache_upkeep.2.2.1 "absent" [sampleNet] (by decide),
   claim3_cache_upkeep.2.2.2.1 "net-a" sampleNet [sampleNetD] [] rfl (by decide),
   claim3_cache_upkeep.2.2.2.2.1 { id := some "net-c" } sampleState _ rfl,
   claim3_cache_upkeep.2.2.2.2.2 "net-a" sampleState _ rfl⟩

/-- Replacing the element found by findIndex with an element of the same id leaves
the list of ids unchanged. -/
theorem set_found_map_id (conn : Network) :
    ∀ (l : List Network) (j : Nat),
      findIndex (fun c => c.id == conn.id) l = some j →
      (l.set j conn).map Network.id = l.map Network.id := by
  intro l
  induction l with
  | nil => intro j h; simp [findIndex] at h
  | cons a l ih =>
      intro j h
      by_cases ha : a.id = conn.id
      · simp [findIndex, ha] at h
        subst h
        simp [ha]
      · simp [findIndex, ha] at h
        obtain ⟨j', hj', rfl⟩ := h
        simp [ih j' hj']

/-- upsertNetwork preserves duplicate-freedom of the cached ids. -/
theorem upsertNetwork_nodup (conn : Network) (ns : List Network)
    (hnd : (ns.map Network.id).Nodup) :
    ((upsertNetwork conn ns).map Network.id).Nodup := by
  cases hfi : findIndex (fun c => c.id == conn.id) ns with
  | some j =>
      have h1 : upsertNetwork conn ns = ns.set j conn := by simp [upsertNetwork, hfi]
      rw [h1, set_found_map_id conn ns j hfi]
      exact hnd
  | none =>
      have h1 : upsertNetwork conn ns = ns ++ [conn] := by simp [upsertNetwork, hfi]
      have hfree : conn.id ∉ ns.map Network.id := by
        intro hmem
        obtain ⟨c, hc, hcid⟩ := List.mem_map.mp hmem
        have hfc := (findIndex_eq_none_iff _ ns).mp hfi c hc
        simp [hcid] at hfc
      rw [h1, List.map_append]
      exact List.Nodup.append hnd (List.nodup_singleton _)
        (by simpa [List.disjoint_singleton] using hfree)

/-- After erasing the first entry with a given id from a duplicate-free cache, no
entry with that id remains. -/
theorem erase_found_no_id (id : String) :
    ∀ (l : List Network) (j : Nat),
      findIndex (fun c => c.id == id) l = some j →
      (l.map Network.id).Nodup → ∀ c ∈ l.eraseIdx j, c.id ≠ id := by
  intro l
  induction l with
  | nil => intro j h _; simp [findIndex] at h
  | cons a l ih =>
      intro j h hnd
      simp only [List.map_cons, List.nodup_cons] at hnd
      by_cases ha : a.id = id
      · simp [findIndex, ha] at h
        subst h
        simp only [List.eraseIdx]
        intro c hc hcid
        exact hnd.1 (by rw [ha, ← hcid]; exact List.mem_map_of_mem _ hc)
      · simp [findIndex, ha] at h
        obtain ⟨j', hj', rfl⟩ := h
        simp only [List.eraseIdx]
        intro c hc
        rcases List.mem_cons.mp hc with rfl | hc
        · exact ha
        · exact ih j' hj' hnd.2 c hc

/-- removeNetwork on a duplicate-free cache leaves no entry with the removed id. -/
theorem removeNetwork_no_id (id : String) (ns : List Network)
    (hnd : (ns.map Network.id).Nodup) :
    ∀ c ∈ removeNetwork id ns, c.id ≠ id := by
  cases hfi : findIndex (fun c => c.id == id) ns with
  | none =>
      have h1 : removeNetwork id ns = ns := by simp [removeNetwork, hfi]
      rw [h1]
      intro c hc
      have hfc := (findIndex_eq_none_iff _ ns).mp hfi c hc
      simpa using hfc
  | some j =>
      have h1 : removeNetwork id ns = ns.eraseIdx j := by simp [removeNetwork, hfi]
      rw [h1]
      exact erase_found_no_id id ns j hfi hnd

/-- Every entry surviving removeNetwork was already in the cache. -/
theorem mem_removeNetwork (id : String) (ns : List Network) (c : Network)
    (hc : c ∈ removeNetwork id ns) : c ∈ ns := by
  unfold removeNetwork at hc
  split at hc
  · exact (List.eraseIdx_sublist ns _).subset hc
  · exact hc

/-- C9: dropNetwork(id) always removes the cached entry with that id: whether the
promise resolves or rejects (getNetwork failure or Network.drop failure, where the
`finally` clause still runs the removal), the resulting cache has no entry whose id
equals the given id.  The hypothesis that cached ids are duplicate-free is an
invariant of every reachable cache. -/
theorem claim9_drop_always_removes (id : String) (s : WebmeshState)
    (hnd : (s.networks.map Network.id).Nodup) :
    ((dropNetwork id s).2.1.networks.all (fun c => c.id != id)) = true := by
  rw [List.all_eq_true]
  have hmain : ∀ c ∈ (dropNetwork id s).2.1.networks, c.id ≠ id := by
    cases hres : s.client.getConnection id with
    | error e =>
        have h1 : (dropNetwork id s).2.1.networks = removeNetwork id s.networks := by
          simp [dropNetwork, getNetwork, hres]
        rw [h1]
        exact removeNetwork_no_id id s.networks hnd
    | ok res =>
        have hnd1 := upsertNetwork_nodup (Network.make s.client id res) s.networks hnd
        rcases hdrop : (Network.make s.client id res).drop with ⟨r, n2, cs⟩
        cases r with
        | ok u =>
            have h1 : (dropNetwork id s).2.1.networks =
                removeNetwork id (removeNetwork id
                  (upsertNetwork (Network.make s.client id res) s.networks)) := by
              simp [dropNetwork, getNetwork, hres, hdrop]
            rw [h1]
            intro c hc
            exact removeNetwork_no_id id _ hnd1 c (mem_removeNetwork id _ c hc)
        | error e =>
            have h1 : (dropNetwork id s).2.1.networks =
                removeNetwork id
                  (upsertNetwork (Network.make s.client id res) s.networks) := by
              simp [dropNetwork, getNetwork, hres, hdrop]
            rw [h1]
            exact removeNetwork_no_id id _ hnd1
  intro c hc
  simpa using hmain c hc

/-- Witness for C9 at a concrete state over the succeeding client. -/
theorem claim9_drop_always_removes_witness :
    ((dropNetwork "net-a" sampleState).2.1.networks.all
      (fun c => c.id != "net-a")) = true :=
  claim9_drop_always_removes "net-a" sampleState (by decide)

/-- Invariant of the timer state: either no interval is live and the interval
variable is unset, or exactly the interval held by the variable is live, with a
handle below the fresh counter. -/
def TimerInv (t : TimerState) : Prop :=
  (t.intervalVar = none ∧ t.active = []) ∨
  (∃ i, t.intervalVar = some i ∧ t.active = [i] ∧ i < t.nextId)

/-- The initial timer state satisfies the invariant. -/
theorem timerInv_init : TimerInv TimerState.init := Or.inl ⟨rfl, rfl⟩

/-- newClient preserves the timer invariant: it clears the previous interval (if
any) before registering a fresh one. -/
theorem timerInv_newClient (t : TimerState) (h : TimerInv t) :
    TimerInv (newClientTimers t) := by
  rcases h with ⟨h1, h2⟩ | ⟨i, h1, h2, h3⟩ <;>
    exact Or.inr ⟨t.nextId, by simp [newClientTimers, h1, h2],
      by simp [newClientTimers, h1, h2], by simp [newClientTimers, h1]⟩

/-- Unmounting from any state satisfying the invariant leaves no live interval. -/
theorem timerInv_unmount (t : TimerState) (h : TimerInv t) :
    (unmountTimers t).active = [] := by
  rcases h with ⟨h1, h2⟩ | ⟨i, h1, h2, _⟩ <;> simp [unmountTimers, h1, h2]

/-- Every state reachable by invocations of newClient satisfies the invariant. -/
theorem timerInv_iterate (n : Nat) :
    TimerInv (newClientTimers^[n] TimerState.init) := by
  induction n with
  | zero => exact timerInv_init
  | succ n ih => rw [Function.iterate_succ_apply']; exact timerInv_newClient _ ih

/-- C7: after any number of newClient invocations at most one polling interval is
live; unmounting clears the live interval, so no further listNetworks poll can be
issued; and each newClient invocation clears the previously registered interval
(the old handle is not live afterwards). -/
theorem claim7_polling_lifecycle : ∀ n : Nat,
    (newClientTimers^[n] TimerState.init).active.length ≤ 1 ∧
    (unmountTimers (newClientTimers^[n] TimerState.init)).active = [] ∧
    (∀ i, (newClientTimers^[n] TimerState.init).intervalVar = some i →
      ((newClientTimers (newClientTimers^[n] TimerState.init)).active.contains i)
        = false) := by
  intro n
  have h := timerInv_iterate n
  refine ⟨?_, timerInv_unmount _ h, ?_⟩
  · rcases h with ⟨_, h2⟩ | ⟨i, _, h2, _⟩ <;> simp [h2]
  · intro i hi
    rcases h with ⟨h1, h2⟩ | ⟨j, h1, h2, h3⟩
    · rw [h1] at hi; cases hi
    · rw [h1] at hi
      injection hi with hij
      subst hij
      have hne : j ≠ (newClientTimers^[n] TimerState.init).nextId :=
        Nat.ne_of_lt h3
      simp [newClientTimers, h1, h2, hne]

/-- Witness for C7 after two newClient invocations. -/
theorem claim7_polling_lifecycle_witness :
    (newClientTimers^[2] TimerState.init).active.length ≤ 1 ∧
    (unmountTimers (newClientTimers^[2] TimerState.init)).active = [] ∧
    ((newClientTimers (newClientTimers^[2] TimerState.init)).active.contains 1)
      = false :=
  ⟨(claim7_polling_lifecycle 2).1, (claim7_polling_lifecycle 2).2.1,
   (claim7_polling_lifecycle 2).2.2 1 (by decide)⟩

/-- The constructor stores the given id unchanged. -/
theorem Network.make_id (client : DaemonClient) (id : String)
    (g : GetConnectionResponse) : (Network.make client id g).id = id := rfl

/-- Network.connect issues either no call or exactly its connect call. -/
theorem connect_calls (n : Network) :
    (n.connect).2.2 = [] ∨ (n.connect).2.2 = [RpcCall.connect n.id] := by
  cases h : n.connected
  · cases hc : n.client.connect n.id <;> simp [Network.connect, h, hc]
  · simp [Network.connect, h]

/-- Network.disconnect issues either no call or exactly its disconnect call. -/
theorem disconnect_calls (n : Network) :
    (n.disconnect).2.2 = [] ∨ (n.disconnect).2.2 = [RpcCall.disconnect n.id] := by
  cases h : n.connected
  · simp [Network.disconnect, h]
  · cases hc : n.client.disconnect n.id <;> simp [Network.disconnect, h, hc]

/-- Network.drop issues its dropConnection call, possibly preceded by one
disconnect call, and possibly stopping after a failed disconnect. -/
theorem drop_calls (n : Network) :
    (n.drop).2.2 = [RpcCall.dropConnection n.id] ∨
    (n.drop).2.2 = [RpcCall.disconnect n.id] ∨
    (n.drop).2.2 = [RpcCall.disconnect n.id, RpcCall.dropConnection n.id] := by
  cases h : n.connected
  · cases hc : n.client.dropConnection n.id <;> simp [Network.drop, h, hc]
  · cases hc : n.client.disconnect n.id with
    | ok u =>
        cases hc2 : n.client.dropConnection n.id <;>
          simp [Network.drop, Network.disconnect, h, hc, hc2]
    | error e => simp [Network.drop, Network.disconnect, h, hc]

/-- C4: failure handling is forwarding only.  For every operation, whenever the
underlying client call rejects with an error e (all prior stages of a composite
operation having succeeded), the operation's promise rejects with the same e; and no
operation ever issues the same client call twice (the call lists are
duplicate-free), so there is no retry or backoff. -/
theorem claim4_error_forwarding :
    (∀ (s : WebmeshState) (e : Err), s.client.listConnections = Except.error e →
      (listNetworks s).1 = Except.error e) ∧
    (∀ (p : NetworkParameters) (s : WebmeshState) (e : Err),
      s.client.putConnection p.id p.params p.meta = Except.error e →
      (putNetwork p s).1 = Except.error e) ∧
    (∀ (id : String) (s : WebmeshState) (e : Err),
      s.client.getConnection id = Except.error e →
      (getNetwork id s).1 = Except.error e) ∧
    (∀ (s : WebmeshState) (e : Err), s.client.status = Except.error e →
      (daemonStatus s).1 = Except.error e) ∧
    (∀ (n : Network) (e : Err), n.connected = false →
      n.client.connect n.id = Except.error e → (n.connect).1 = Except.error e) ∧
    (∀ (n : Network) (e : Err), n.connected = true →
      n.client.disconnect n.id = Except.error e →
      (n.disconnect).1 = Except.error e) ∧
    (∀ (n : Network) (e : Err), n.client.metrics [n.id] = Except.error e →
      (n.metrics).1 = Except.error e) ∧
    (∀ (n : Network) (e : Err), n.connected = false →
      n.client.dropConnection n.id = Except.error e → (n.drop).1 = Except.error e) ∧
    (∀ (n : Network) (e : Err), n.connected = true →
      n.client.disconnect n.id = Except.error e → (n.drop).1 = Except.error e) ∧
    (∀ (n : Network) (e : Err), n.connected = true →
      n.client.disconnect n.id = Except.ok () →
      n.client.dropConnection n.id = Except.error e →
      (n.drop).1 = Except.error e) ∧
    (∀ (id : String) (s : WebmeshState) (e : Err),
      s.client.getConnection id = Except.error e →
      (dropNetwork id s).1 = Except.error e) ∧
    (∀ (id : String) (s : WebmeshState) (res : GetConnectionResponse) (e : Err),
      s.client.getConnection id = Except.ok res →
      ((Network.make s.client id res).drop).1 = Except.error e →
      (dropNetwork id s).1 = Except.error e) ∧
    (∀ (id : String) (s : WebmeshState) (e : Err),
      s.client.getConnection id = Except.error e →
      (disconnect id s).1 = Except.error e) ∧
    (∀ (id : String) (s : WebmeshState) (res : GetConnectionResponse) (e : Err),
      s.client.getConnection id = Except.ok res →
      ((Network.make s.client id res).disconnect).1 = Except.error e →
      (disconnect id s).1 = Except.error e) ∧
    (∀ (p : NetworkParameters) (s : WebmeshState) (e : Err),
      (p.meta.isSome || p.params.isSome) = true →
      s.client.putConnection p.id p.params p.meta = Except.error e →
      (connect p s).1 = Except.error e) ∧
    (∀ (p : NetworkParameters) (s : WebmeshState) (res : PutConnectionResponse)
        (e : Err),
      (p.meta.isSome || p.params.isSome) = true →
      s.client.putConnection p.id p.params p.meta = Except.ok res →
      s.client.connect res.id = Except.error e →
      (connect p s).1 = Except.error e) ∧
    (∀ (p : NetworkParameters) (s : WebmeshState) (e : Err),
      (p.meta.isSome || p.params.isSome) = false → strTruthy p.id = true →
      s.client.getConnection (p.id.getD "") = Except.error e →
      (connect p s).1 = Except.error e) ∧
    (∀ (p : NetworkParameters) (s : WebmeshState) (res : GetConnectionResponse)
        (e : Err),
      (p.meta.isSome || p.params.isSome) = false → strTruthy p.id = true →
      s.client.getConnection (p.id.getD "") = Except.ok res →
      ((Network.make s.client (p.id.getD "") res).connect).1 = Except.error e →
      (connect p s).1 = Except.error e) ∧
    (∀ s : WebmeshState, (listNetworks s).2.2.Nodup) ∧
    (∀ (p : NetworkParameters) (s : WebmeshState), (putNetwork p s).2.2.Nodup) ∧
    (∀ (id : String) (s : WebmeshState), (getNetwork id s).2.2.Nodup) ∧
    (∀ s : WebmeshState, (daemonStatus s).2.2.Nodup) ∧
    (∀ n : Network, (n.connect).2.2.Nodup) ∧
    (∀ n : Network, (n.disconnect).2.2.Nodup) ∧
    (∀ n : Network, (n.metrics).2.2.Nodup) ∧
    (∀ n : Network, (n.drop).2.2.Nodup) ∧
    (∀ (id : String) (s : WebmeshState), (dropNetwork id s).2.2.Nodup) ∧
    (∀ (id : String) (s : WebmeshState), (disconnect id s).2.2.Nodup) ∧
    (∀ (p : NetworkParameters) (s : WebmeshState), (connect p s).2.2.Nodup) := by
  refine ⟨?_, ?_, ?_, ?_, ?_, ?_, ?_, ?_, ?_, ?_, ?_, ?_, ?_, ?_, ?_, ?_, ?_, ?_,
    ?_, ?_, ?_, ?_, ?_, ?_, ?_, ?_, ?_, ?_, ?_⟩
  · intro s e h; simp [listNetworks, h]
  · intro p s e h; simp [putNetwork, h]
  · intro id s e h; simp [getNetwork, h]
  · intro s e h; simp [daemonStatus, h]
  · intro n e h hc; simp [Network.connect, h, hc]
  · intro n e h hc; simp [Network.disconnect, h, hc]
  · intro n e h; simp [Network.metrics, h]
  · intro n e h hc; simp [Network.drop, h, hc]
  · intro n e h hc; simp [Network.drop, Network.disconnect, h, hc]
  · intro n e h hc hc2; simp [Network.drop, Network.disconnect, h, hc, hc2]
  · intro id s e h; simp [dropNetwork, getNetwork, h]
  · intro id s res e hres hdrop
    rcases hd : (Network.make s.client id res).drop with ⟨r, n2, cs⟩
    rw [hd] at hdrop
    simp at hdrop
    subst hdrop
    simp [dropNetwork, getNetwork, hres, hd]
  · intro id s e h; simp [disconnect, getNetwork, h]
  · intro id s res e hres hdis
    rcases hd : (Network.make s.client id res).disconnect with ⟨r, n2, cs⟩
    rw [hd] at hdis
    simp at hdis
    subst hdis
    simp [disconnect, getNetwork, hres, hd]
  · intro p s e hcond hput; simp [connect, hcond, putNetwork, hput]
  · intro p s res e hcond hput hcc
    simp [connect, hcond, putNetwork, hput, Network.connect, Network.make,
      statusConnected, hcc]
  · intro p s e hcond hid hres; simp [connect, hcond, hid, getNetwork, hres]
  · intro p s res e hcond hid hres hcc
    rcases hd : (Network.make s.client (p.id.getD "") res).connect with ⟨r, n1, cs⟩
    rw [hd] at hcc
    simp at hcc
    subst hcc
    simp [connect, hcond, hid, getNetwork, hres, hd]
  · intro s; cases h : s.client.listConnections <;> simp [listNetworks, h]
  · intro p s
    cases h : s.client.putConnection p.id p.params p.meta <;> simp [putNetwork, h]
  · intro id s; cases h : s.client.getConnection id <;> simp [getNetwork, h]
  · intro s; simp [daemonStatus]
  · intro n; rcases connect_calls n with h | h <;> simp [h]
  · intro n; rcases disconnect_calls n with h | h <;> simp [h]
  · intro n; cases h : n.client.metrics [n.id] <;> simp [Network.metrics, h]
  · intro n; rcases drop_calls n with h | h | h <;> simp [h]
  · intro id s
    cases hres : s.client.getConnection id with
    | error e => simp [dropNetwork, getNetwork, hres]
    | ok res =>
        have hcalls : (dropNetwork id s).2.2 =
            RpcCall.getConnection id ::
              ((Network.make s.client id res).drop).2.2 := by
          rcases hd : (Network.make s.client id res).drop with ⟨r, n2, cs⟩
          cases r <;> simp [dropNetwork, getNetwork, hres, hd]
        rw [hcalls]
        rcases drop_calls (Network.make s.client id res) with h | h | h <;>
          rw [h, Network.make_id] <;> simp
  · intro id s
    cases hres : s.client.getConnection id with
    | error e => simp [disconnect, getNetwork, hres]
    | ok res =>
        have hcalls : (disconnect id s).2.2 =
            RpcCall.getConnection id ::
              ((Network.make s.client id res).disconnect).2.2 := by
          rcases hd : (Network.make s.client id res).disconnect with ⟨r, n2, cs⟩
          cases r <;> simp [disconnect, getNetwork, hres, hd]
        rw [hcalls]
        rcases disconnect_calls (Network.make s.client id res) with h | h <;>
          rw [h] <;> simp [Network.make_id]
  · intro p s
    by_cases hcond : (p.meta.isSome || p.params.isSome) = true
    · cases hput : s.client.putConnection p.id p.params p.meta with
      | error e => simp [connect, hcond, putNetwork, hput]
      | ok res =>
          have hcalls : (connect p s).2.2 =
              RpcCall.putConnection p.id p.params p.meta ::
                ((Network.make s.client res.id
                  { status := DaemonConnStatus.DISCONNECTED
                    parameters := p.params
                    metadata := p.meta }).connect).2.2 := by
            rcases hd : (Network.make s.client res.id
                { status := DaemonConnStatus.DISCONNECTED
                  parameters := p.params
                  metadata := p.meta }).connect with ⟨r, n1, cs⟩
            cases r <;> simp [connect, hcond, putNetwork, hput, hd]
          rw [hcalls]
          rcases connect_calls (Network.make s.client res.id
              { status := DaemonConnStatus.DISCONNECTED
                parameters := p.params
                metadata := p.meta }) with h | h <;> simp [h]
    · have hcondf : (p.meta.isSome || p.params.isSome) = false := by
        simpa using hcond
      by_cases hid : strTruthy p.id = true
      · cases hres : s.client.getConnection (p.id.getD "") with
        | error e => simp [connect, hcondf, hid, getNetwork, hres]
        | ok res =>
            have hcalls : (connect p s).2.2 =
                RpcCall.getConnection (p.id.getD "") ::
                  ((Network.make s.client (p.id.getD "") res).connect).2.2 := by
              rcases hd : (Network.make s.client (p.id.getD "") res).connect with
                ⟨r, n1, cs⟩
              cases r <;> simp [connect, hcondf, hid, getNetwork, hres, hd]
            rw [hcalls]
            rcases connect_calls (Network.make s.client (p.id.getD "") res) with
              h | h <;> rw [h] <;> simp [Network.make_id]
      · have hidf : strTruthy p.id = false := by simpa using hid
        simp [connect, hcondf, hidf]

/-- Witness for C4: over the failing client the operations reject with the client's
error, and over the succeeding client dropNetwork issues duplicate-free calls. -/
theorem claim4_error_forwarding_witness :
    (listNetworks errState).1 = Except.error { message := "daemon unreachable" } ∧
    (dropNetwork "net-a" errState).1 =
      Except.error { message := "daemon unreachable" } ∧
    ((Network.make errClient "net-x" sampleGetDisconnected).connect).1 =
      Except.error { message := "daemon unreachable" } ∧
    ((dropNetwork "net-a" sampleState).2.2).Nodup := by
  obtain ⟨h1, _, _, _, h5, _, _, _, _, _, h11, _, _, _, _, _, _, _, _, _, _, _, _,
    _, _, _, hn9, _, _⟩ := claim4_error_forwarding
  exact ⟨h1 errState { message := "daemon unreachable" } rfl,
    h11 "net-a" errState { message := "daemon unreachable" } rfl,
    h5 (Network.make errClient "net-x" sampleGetDisconnected)
      { message := "daemon unreachable" } rfl rfl,
    hn9 "net-a" sampleState⟩

/-- C1 counterexample: Network.connect on an already-connected Network (over a
client whose connect call would succeed) issues no client call at all and rejects
with a locally created error, so not every operation is, for every input and client
behaviour, a direct pass-through that invokes the client method and forwards its
result or error. -/
theorem claim1_counterexample :
    sampleNet.connected = true ∧
    okClient.connect sampleNet.id = Except.ok sampleConnectRes ∧
    (sampleNet.connect).2.2 = [] ∧
    (sampleNet.connect).1 = Except.error { message := "already connected" } :=
  ⟨rfl, rfl, rfl, rfl⟩

/-- C1 (amended): each primitive operation — daemonStatus, listNetworks, putNetwork,
getNetwork, Network.metrics, and, when the connected-state guard passes,
Network.connect, Network.disconnect and Network.drop — invokes its corresponding
client method exactly once (Network.drop on a connected network first issues the
disconnect call) and resolves with the client's result, possibly wrapped into a
Network or looked up by id, or rejects with exactly the client's error; the guarded
methods and parameterless connect reject locally without any client call. -/
theorem claim1_amended_passthrough :
    (∀ s : WebmeshState, daemonStatus s = (s.client.status, s, [RpcCall.status])) ∧
    (∀ s : WebmeshState, (listNetworks s).2.2 = [RpcCall.listConnections]) ∧
    (∀ (s : WebmeshState) (e : Err), s.client.listConnections = Except.error e →
      (listNetworks s).1 = Except.error e) ∧
    (∀ (s : WebmeshState) (resp : ListConnectionsResponse),
      s.client.listConnections = Except.ok resp →
      (listNetworks s).1 =
        Except.ok (resp.connections.map (fun p => Network.make s.client p.1 p.2))) ∧
    (∀ (p : NetworkParameters) (s : WebmeshState),
      (putNetwork p s).2.2 = [RpcCall.putConnection p.id p.params p.meta]) ∧
    (∀ (p : NetworkParameters) (s : WebmeshState) (e : Err),
      s.client.putConnection p.id p.params p.meta = Except.error e →
      (putNetwork p s).1 = Except.error e) ∧
    (∀ (p : NetworkParameters) (s : WebmeshState) (res : PutConnectionResponse),
      s.client.putConnection p.id p.params p.meta = Except.ok res →
      (putNetwork p s).1 = Except.ok (Network.make s.client res.id
        { status := DaemonConnStatus.DISCONNECTED
          parameters := p.params
          metadata := p.meta })) ∧
    (∀ (id : String) (s : WebmeshState),
      (getNetwork id s).2.2 = [RpcCall.getConnection id]) ∧
    (∀ (id : String) (s : WebmeshState) (e : Err),
      s.client.getConnection id = Except.error e →
      (getNetwork id s).1 = Except.error e) ∧
    (∀ (id : String) (s : WebmeshState) (res : GetConnectionResponse),
      s.client.getConnection id = Except.ok res →
      (getNetwork id s).1 = Except.ok (Network.make s.client id res)) ∧
    (∀ n : Network, (n.metrics).2.2 = [RpcCall.metrics [n.id]]) ∧
    (∀ (n : Network) (e : Err), n.client.metrics [n.id] = Except.error e →
      (n.metrics).1 = Except.error e) ∧
    (∀ (n : Network) (r : MetricsResponse), n.client.metrics [n.id] = Except.ok r →
      (n.metrics).1 = Except.ok (r.interfaces.lookup n.id)) ∧
    (∀ n : Network, n.connected = false →
      (n.connect).2.2 = [RpcCall.connect n.id]) ∧
    (∀ (n : Network) (res : ConnectResponse), n.connected = false →
      n.client.connect n.id = Except.ok res → (n.connect).1 = Except.ok ()) ∧
    (∀ (n : Network) (e : Err), n.connected = false →
      n.client.connect n.id = Except.error e → (n.connect).1 = Except.error e) ∧
    (∀ n : Network, n.connected = true →
      (n.disconnect).2.2 = [RpcCall.disconnect n.id]) ∧
    (∀ n : Network, n.connected = true → n.client.disconnect n.id = Except.ok () →
      (n.disconnect).1 = Except.ok ()) ∧
    (∀ (n : Network) (e : Err), n.connected = true →
      n.client.disconnect n.id = Except.error e →
      (n.disconnect).1 = Except.error e) ∧
    (∀ n : Network, n.connected = false →
      (n.drop).2.2 = [RpcCall.dropConnection n.id]) ∧
    (∀ n : Network, n.connected = false →
      n.client.dropConnection n.id = Except.ok () → (n.drop).1 = Except.ok ()) ∧
    (∀ (n : Network) (e : Err), n.connected = false →
      n.client.dropConnection n.id = Except.error e →
      (n.drop).1 = Except.error e) ∧
    (∀ n : Network, n.connected = true → n.client.disconnect n.id = Except.ok () →
      (n.drop).2.2 = [RpcCall.disconnect n.id, RpcCall.dropConnection n.id]) ∧
    (∀ n : Network, n.connected = true → n.client.disconnect n.id = Except.ok () →
      n.client.dropConnection n.id = Except.ok () → (n.drop).1 = Except.ok ()) ∧
    (∀ n : Network, n.connected = true →
      n.connect = (Except.error { message := "already connected" }, n, [])) ∧
    (∀ n : Network, n.connected = false →
      n.disconnect = (Except.error { message := "not connected" }, n, [])) ∧
    (∀ (p : NetworkParameters) (s : WebmeshState),
      (p.meta.isSome || p.params.isSome) = false → strTruthy p.id = false →
      connect p s =
        (Except.error { message := "no connection parameters provided" }, s, [])) := by
  refine ⟨?_, ?_, ?_, ?_, ?_, ?_, ?_, ?_, ?_, ?_, ?_, ?_, ?_, ?_, ?_, ?_, ?_, ?_,
    ?_, ?_, ?_, ?_, ?_, ?_, ?_, ?_, ?_⟩
  · intro s; simp [daemonStatus]
  · intro s; cases h : s.client.listConnections <;> simp [listNetworks, h]
  · intro s e h; simp [listNetworks, h]
  · intro s resp h; simp [listNetworks, h]
  · intro p s
    cases h : s.client.putConnection p.id p.params p.meta <;> simp [putNetwork, h]
  · intro p s e h; simp [putNetwork, h]
  · intro p s res h; simp [putNetwork, h]
  · intro id s; cases h : s.client.getConnection id <;> simp [getNetwork, h]
  · intro id s e h; simp [getNetwork, h]
  · intro id s res h; simp [getNetwork, h]
  · intro n; cases h : n.client.metrics [n.id] <;> simp [Network.metrics, h]
  · intro n e h; simp [Network.metrics, h]
  · intro n r h; simp [Network.metrics, h]
  · intro n h; cases hc : n.client.connect n.id <;> simp [Network.connect, h, hc]
  · intro n res h hc; simp [Network.connect, h, hc]
  · intro n e h hc; simp [Network.connect, h, hc]
  · intro n h
    cases hc : n.client.disconnect n.id <;> simp [Network.disconnect, h, hc]
  · intro n h hc; simp [Network.disconnect, h, hc]
  · intro n e h hc; simp [Network.disconnect, h, hc]
  · intro n h
    cases hc : n.client.dropConnection n.id <;> simp [Network.drop, h, hc]
  · intro n h hc; simp [Network.drop, h, hc]
  · intro n e h hc; simp [Network.drop, h, hc]
  · intro n h hc
    cases hc2 : n.client.dropConnection n.id <;>
      simp [Network.drop, Network.disconnect, h, hc, hc2]
  · intro n h hc hc2; simp [Network.drop, Network.disconnect, h, hc, hc2]
  · intro n h; simp [Network.connect, h]
  · intro n h; simp [Network.disconnect, h]
  · intro p s h1 h2; simp [connect, h1, h2]

/-- Witness for C1 (amended) at concrete clients and networks. -/
theorem claim1_amended_passthrough_witness :
    daemonStatus sampleState =
      (Except.ok { raw := "" }, sampleState, [RpcCall.status]) ∧
    (getNetwork "net-a" sampleState).1 =
      Except.ok (Network.make okClient "net-a" sampleGetConnected) ∧
    ((sampleNetD.connect).2.2 = [RpcCall.connect "net-b"]) ∧
    ((Network.make errClient "net-b" sampleGetDisconnected).connect).1 =
      Except.error { message := "daemon unreachable" } := by
  obtain ⟨h1, _, _, _, _, _, _, _, _, h10, _, _, _, h14, _, h16, _⟩ :=
    claim1_amended_passthrough
  exact ⟨h1 sampleState, h10 "net-a" sampleState sampleGetConnected rfl,
    h14 sampleNetD rfl,
    h16 (Network.make errClient "net-b" sampleGetDisconnected)
      { message := "daemon unreachable" } rfl rfl⟩

/-- Witness for C2 at the concrete succeeding client. -/
theorem claim2_list_synchronizes_cache_witness :
    listNetworks sampleState =
      (Except.ok [Network.make okClient "net-a" sampleGetConnected,
                  Network.make okClient "net-b" sampleGetDisconnected],
       { sampleState with networks :=
           [Network.make okClient "net-a" sampleGetConnected,
            Network.make okClient "net-b" sampleGetDisconnected] },
       [RpcCall.listConnections]) :=
  claim2_list_synchronizes_cache sampleState
    { connections := [("net-a", sampleGetConnected), ("net-b", sampleGetDisconnected)] }
    rfl

end Webmesh
